import Mathlib

/-!
Shallow embedding of the grixprotocol/plugin-grix services
(src/dist/index.js, src/src/services/*.ts) and proofs about them.

JavaScript numbers are modelled as rationals (`Rat`): every comparison the
code performs (`<= 0`, equality with literals such as `0.01`) is exact on
the values involved.  Host-environment functions (`Intl.NumberFormat`,
`Date` parsing/locale formatting, `parseFloat`, `Number.prototype.toString`)
are parameters of the model (`JsEnv`): the code only pipes their output
through, never branches on it.  Time (`Date.now()`) is an explicit `Nat`
argument (epoch milliseconds).  Remote SDK behaviour is an explicit
argument (returned price, board response, poll results), and every remote
interaction performed by a service call is recorded in an event trace.
-/

namespace Grix

/-! ### JavaScript string primitives -/

/-- Model of `String.prototype.toUpperCase` (character-wise, as the code
only ever compares the result with ASCII literals). -/
def jsToUpper (s : String) : String :=
  (s.toList.map Char.toUpper).asString

/-- Model of `String.prototype.toLowerCase`. -/
def jsToLower (s : String) : String :=
  (s.toList.map Char.toLower).asString

/-- Model of `String.prototype.charAt(0)`: first character as a string,
`""` on the empty string. -/
def jsCharAt0 (s : String) : String :=
  match s.toList with
  | [] => ""
  | c :: _ => String.mk [c]

/-- Auxiliary splitter over character lists: `acc` is the current chunk in
reverse.  Matches `String.prototype.split` with a one-character separator
(`"".split` gives `[""]`, a trailing separator gives a trailing `""`). -/
def jsSplitAux (sep : Char) : List Char → List Char → List (List Char)
  | [], acc => [acc.reverse]
  | c :: cs, acc =>
      if c = sep then acc.reverse :: jsSplitAux sep cs []
      else jsSplitAux sep cs (c :: acc)

/-- Model of `String.prototype.split` with a single-character separator. -/
def jsSplit (sep : Char) (s : String) : List String :=
  (jsSplitAux sep s.toList []).map List.asString

/-! ### Error taxonomy (src/types/error.ts)

`GrixError extends Error` with subclasses `AuthenticationError`,
`InvalidParameterError`, and `ApiError (message, code, response?)`. -/

inductive DomainError where
  | grix (message : String)
  | authentication (message : String)
  | invalidParameter (message : String)
  | api (message : String) (code : Nat)
deriving DecidableEq, Repr

/-- A JavaScript value as thrown/caught.  `domainErr` is an
`instanceof GrixError` value, `jsError` is any other `instanceof Error`
value (its message), and `other` is a non-`Error` value, carrying the
result of `toString()` (`none` models `null`/`undefined`, where the
code's optional call `error?.toString()` yields `undefined`). -/
inductive Thrown where
  | domainErr (e : DomainError)
  | jsError (message : String)
  | other (toStr : Option String)
deriving DecidableEq, Repr

/-- Whether the value is `instanceof GrixError`. -/
def isDomainError : Thrown → Bool
  | .domainErr _ => true
  | _ => false

/-- Whether the value is `instanceof Error` (every `GrixError` is). -/
def isErrorInstance : Thrown → Bool
  | .domainErr _ => true
  | .jsError _ => true
  | .other _ => false

/-- The `error?.toString() || "Unknown error"` computation in
`BaseService.handleError`. -/
def toStrOrUnknown : Option String → String
  | some s => if s = "" then "Unknown error" else s
  | none => "Unknown error"

/-- The `context ? ` during ${context}` : ""` computation. -/
def contextSuffix : Option String → String
  | some c => " during " ++ c
  | none => ""

/-- `BaseService.handleError` (src/dist/index.js:104-112): values passing
`error instanceof GrixError || error instanceof Error` are returned
unchanged (the first two cases); anything else is wrapped as
`new ApiError("Grix API error" + contextStr + ": " + message, 500)`. -/
def handleError (error : Thrown) (context : Option String) : Thrown :=
  match error with
  | .domainErr _ => error
  | .jsError _ => error
  | .other t =>
      .domainErr (.api ("Grix API error" ++ contextSuffix context ++ ": " ++ toStrOrUnknown t) 500)

/-! ### Validation constants (src/constants/api.ts, src/constants/errors.ts) -/

def validAssets : List String := ["BTC", "ETH"]

def INVALID_ASSET_MSG : String := "Invalid asset. Only BTC and ETH are supported."

def INVALID_OPTION_TYPE_MSG : String := "Invalid option type. Only 'call' and 'put' are supported."

def INVALID_POSITION_TYPE_MSG : String :=
  "Invalid position type. Only 'long' and 'short' are supported."

/-! ### Host-environment functions

The services pipe these through without branching on their output, so the
model takes them as parameters: `parseFloat`, number `toString`,
`Number.prototype.toLocaleString`, the `Date`-based `DDMMMYY` fragment of
`formatOptionSymbol`, and the `Intl.NumberFormat` currency formatter. -/

structure JsEnv where
  parseFloat : String → Rat
  numToString : Rat → String
  numToLocaleString : Rat → String
  dateDDMMMYY : String → String
  formatPrice : Rat → String

/-- A concrete environment instance, used to evaluate the model at
specific inputs. -/
def testEnv : JsEnv where
  parseFloat := fun _ => 0
  numToString := fun _ => "0"
  numToLocaleString := fun _ => "0"
  dateDDMMMYY := fun _ => "01JAN70"
  formatPrice := fun _ => "$0.00"

/-! ### Price service (src/services/price.ts, src/unnamed/part_003) -/

structure PriceResponseOut where
  asset : String
  price : Rat
  formattedPrice : String
  timestamp : Nat
deriving DecidableEq, Repr

inductive PriceEvent where
  | sdkInit
  | priceFetch (assetName : String)
deriving DecidableEq, Repr

namespace PriceService

/-- `PriceService.validateAsset`: uppercase the asset and require
membership in `ASSET_TYPES`; as a function it returns the
`InvalidParameterError` the method throws, if any. -/
def validateAsset (asset : String) : Option DomainError :=
  if jsToUpper asset ∉ validAssets then
    some (.invalidParameter INVALID_ASSET_MSG)
  else none

/-- `PriceService.getPrice`: validate, then initialize the SDK and fetch
the spot price (`price` is the value the remote returns, `now` is
`Date.now()`).  The trace records the remote interactions in order. -/
def getPrice (env : JsEnv) (asset : String) (price : Rat) (now : Nat) :
    List PriceEvent × Except Thrown PriceResponseOut :=
  match validateAsset asset with
  | some e => ([], .error (handleError (.domainErr e) (some ("price fetch for " ++ asset))))
  | none =>
      let assetName := if jsToLower asset = "btc" then "bitcoin" else "ethereum"
      ([.sdkInit, .priceFetch assetName],
        .ok { asset := jsToUpper asset, price := price,
              formattedPrice := env.formatPrice price, timestamp := now })

end PriceService

/-! ### Option service (src/services/option.ts, src/dist/index.js:176-372) -/

structure RawOption where
  expiry : String
  strike : Rat
  contractPrice : Rat
  protocol : String
  availableAmount : String
  type : String
  optionId : String
deriving DecidableEq, Repr

structure TransformedOption where
  expiry : String
  strike : Rat
  price : Rat
  protocol : String
  available : Rat
  type : String
  optionId : String
deriving DecidableEq, Repr

structure CachedOption where
  optionId : String
  symbol : String
  type : String
  expiry : String
  strike : Rat
  protocol : String
  marketName : String
  contractPrice : Rat
  availableAmount : String
deriving DecidableEq, Repr

structure OptionsRequest where
  asset : String
  optionType : Option String
  positionType : Option String
deriving DecidableEq, Repr

structure OptionOut where
  optionId : String
  expiry : String
  strike : Rat
  price : Rat
  protocol : String
  available : Rat
  type : String
deriving DecidableEq, Repr

structure OptionsResponseOut where
  asset : String
  optionType : String
  formattedOptions : String
  options : List OptionOut
  timestamp : Nat
deriving DecidableEq, Repr

structure OptionState where
  optionsCache : List CachedOption
  lastFetchTime : Nat
deriving DecidableEq, Repr

inductive OptEvent where
  | sdkInit
  | boardFetch (asset optionType positionType : String)
deriving DecidableEq, Repr

namespace OptionService

def CACHE_DURATION : Nat := 60000

/-- Constructor state: empty cache, `lastFetchTime = 0`. -/
def initialState : OptionState := { optionsCache := [], lastFetchTime := 0 }

/-- `shouldRefreshCache`: `Date.now() - this.lastFetchTime > CACHE_DURATION`
(strict inequality; `Nat` subtraction agrees with the code because the
clock never runs backwards past a recorded fetch time). -/
def shouldRefreshCache (now : Nat) (st : OptionState) : Bool :=
  decide (CACHE_DURATION < now - st.lastFetchTime)

/-- `request.asset.toUpperCase() === "BTC" ? UnderlyingAsset.BTC :
UnderlyingAsset.ETH` — any asset other than BTC maps to ETH. -/
def mapAssetToUnderlying (asset : String) : String :=
  if jsToUpper asset = "BTC" then "BTC" else "ETH"

/-- `request.optionType === "call" ? OptionType.call : OptionType.put`. -/
def mapOptionType (t : Option String) : String :=
  if t = some "call" then "call" else "put"

/-- `request.positionType === "long" ? "long" : "short"`. -/
def mapPositionType (t : Option String) : String :=
  if t = some "long" then "long" else "short"

/-- `transformOptionsData`: a non-array response (`none`) yields `[]`,
otherwise each raw option is reshaped field by field. -/
def transformOptionsData (env : JsEnv) (apiResponse : Option (List RawOption)) :
    List TransformedOption :=
  match apiResponse with
  | none => []
  | some l => l.map fun opt =>
      { expiry := opt.expiry, strike := opt.strike, price := opt.contractPrice,
        protocol := opt.protocol, available := env.parseFloat opt.availableAmount,
        type := opt.type, optionId := opt.optionId }

/-- The `this.optionsCache = transformedOptions.map(...)` assignment:
every cache entry takes `symbol` from the asset of the current fetch. -/
def buildCache (env : JsEnv) (asset : String) (transformed : List TransformedOption) :
    List CachedOption :=
  transformed.map fun opt =>
    { optionId := opt.optionId, symbol := asset, type := opt.type, expiry := opt.expiry,
      strike := opt.strike, protocol := opt.protocol, marketName := opt.protocol,
      contractPrice := opt.price, availableAmount := env.numToString opt.available }

/-- State after a refresh at time `now` with board response `board`. -/
def refreshedState (env : JsEnv) (asset : String) (now : Nat)
    (board : Option (List RawOption)) : OptionState :=
  { optionsCache := buildCache env asset (transformOptionsData env board),
    lastFetchTime := now }

/-- The `if (request.optionType) filteredOptions = ... .filter(...)` step
(`""` is falsy in JavaScript, hence skips the filter). -/
def applyTypeFilter (t : Option String) (cache : List CachedOption) : List CachedOption :=
  match t with
  | some s => if s = "" then cache else cache.filter fun opt => jsToLower opt.type = jsToLower s
  | none => cache

/-- The `request.optionType || "all"` field of the response. -/
def optionTypeLabel (t : Option String) : String :=
  match t with
  | some s => if s = "" then "all" else s
  | none => "all"

/-- `formatOptionSymbol`: template
`symbol-DDMMMYY-strike-T` with the date fragment computed by the host
`Date` object and `T = type.charAt(0)`. -/
def formatOptionSymbol (env : JsEnv) (opt : CachedOption) : String :=
  opt.symbol ++ "-" ++ env.dateDDMMMYY opt.expiry ++ "-" ++ env.numToString opt.strike
    ++ "-" ++ jsCharAt0 opt.type

/-- Key order of the `reduce`-built expiry grouping object: first
occurrence order, as `Object.entries` iterates string keys in insertion
order. -/
def expiryKeys (options : List CachedOption) : List String :=
  options.foldl (fun acc opt => if acc.contains opt.expiry then acc else acc ++ [opt.expiry]) []

def formatOneOption (env : JsEnv) (opt : CachedOption) : String :=
  "\n" ++ formatOptionSymbol env opt ++ "\n" ++
  "Protocol: " ++ opt.protocol ++ "\n" ++
  "Available: " ++ opt.availableAmount ++ " contracts\n" ++
  "Price: $" ++ env.numToLocaleString opt.contractPrice ++ "\n" ++
  "------------------------\n"

def formatExpiryGroup (env : JsEnv) (options : List CachedOption) (expiry : String) : String :=
  "\nExpiry: " ++ expiry ++ "\n" ++
  String.join ((options.filter fun opt => opt.expiry = expiry).map (formatOneOption env))

/-- `formatOptionsResponse`: `"No options available"` on an empty list,
otherwise the grouped display string, trimmed. -/
def formatOptionsResponse (env : JsEnv) (options : List CachedOption) : String :=
  if options.length = 0 then "No options available"
  else (String.join ((expiryKeys options).map (formatExpiryGroup env options))).trim

/-- The per-entry reshaping in the response's `options` field
(`available: parseFloat(opt.availableAmount)`). -/
def cacheToOut (env : JsEnv) (opt : CachedOption) : OptionOut :=
  { optionId := opt.optionId, expiry := opt.expiry, strike := opt.strike,
    price := opt.contractPrice, protocol := opt.protocol,
    available := env.parseFloat opt.availableAmount, type := opt.type }

/-- The response object built at the end of `getOptions` from the
(possibly refreshed) cache state. -/
def buildResponse (env : JsEnv) (req : OptionsRequest) (now : Nat) (st : OptionState) :
    OptionsResponseOut :=
  let filtered := applyTypeFilter req.optionType st.optionsCache
  { asset := req.asset
    optionType := optionTypeLabel req.optionType
    formattedOptions := formatOptionsResponse env filtered
    options := filtered.map (cacheToOut env)
    timestamp := now }

/-- `OptionService.getOptions`: initialize the SDK (first event), map
request enumerations, refresh the cache when stale (second event), then
filter and format.  Note the method performs no input validation: the
`validateRequest` method below exists in the source but is never called. -/
def getOptions (env : JsEnv) (st : OptionState) (req : OptionsRequest) (now : Nat)
    (board : Option (List RawOption)) : List OptEvent × OptionState × OptionsResponseOut :=
  let asset := mapAssetToUnderlying req.asset
  if shouldRefreshCache now st then
    let st2 := refreshedState env asset now board
    ([.sdkInit, .boardFetch asset (mapOptionType req.optionType) (mapPositionType req.positionType)],
      st2, buildResponse env req now st2)
  else
    ([.sdkInit], st, buildResponse env req now st)

def isBoardFetch : OptEvent → Bool
  | .boardFetch _ _ _ => true
  | _ => false

/-- Number of remote board fetches recorded in a trace. -/
def fetchCount (evs : List OptEvent) : Nat := (evs.filter isBoardFetch).length

def validOptionTypes : List String := ["call", "put"]

def validPositionTypes : List String := ["long", "short"]

/-- `OptionService.validateRequest` — present in the source
(src/dist/index.js:281-305) with asset, option-type and position-type
checks, but dead code: `getOptions` never invokes it. -/
def validateRequest (asset : String) (optionType : String) (positionType : Option String) :
    Option DomainError :=
  if jsToUpper asset ∉ validAssets then
    some (.invalidParameter INVALID_ASSET_MSG)
  else if jsToLower optionType ∉ validOptionTypes then
    some (.invalidParameter INVALID_OPTION_TYPE_MSG)
  else
    match positionType with
    | some p =>
        if p = "" then none
        else if jsToLower p ∉ validPositionTypes then
          some (.invalidParameter INVALID_POSITION_TYPE_MSG)
        else none
    | none => none

end OptionService

/-! ### Signal service (src/src/services/signal.ts) -/

structure TradingSignalRequest where
  asset : String
  budget_usd : Rat
  trade_window_ms : Rat
  risk_level : String
  strategy_focus : String
deriving DecidableEq, Repr

structure SignalBody where
  action_type : String
  position_type : String
  instrument : String
  instrument_type : String
  size : Rat
  expected_instrument_price_usd : Rat
  expected_total_price_usd : Rat
  reason : String
  target_position_id : Option String
deriving DecidableEq, Repr

/-- One remote signal record (`SignalData` in the source; `created_at`
and `updated_at` are passed through verbatim). -/
structure SignalData where
  id : String
  signal : SignalBody
  created_at : String
  updated_at : String
deriving DecidableEq, Repr

structure SignalRequestStatus where
  progress : String
  signals : List SignalData
deriving DecidableEq, Repr

structure PersonalAgent where
  signal_requests : List SignalRequestStatus
deriving DecidableEq, Repr

/-- Shape of one `sdk.getTradeSignals` response. -/
structure TradeSignalsResult where
  personalAgents : List PersonalAgent
deriving DecidableEq, Repr

/-- One element of `SignalResponse.signals`. -/
structure SignalOut where
  id : String
  action_type : String
  position_type : String
  instrument : String
  instrument_type : String
  size : Rat
  expected_instrument_price_usd : Rat
  expected_total_price_usd : Rat
  reason : String
  target_position_id : Option String
  created_at : String
  updated_at : String
deriving DecidableEq, Repr

structure SignalResponseOut where
  signals : List SignalOut
  timestamp : Nat
deriving DecidableEq, Repr

inductive SigEvent where
  | sdkInit
  | createAgent
  | requestSignals
  | pollAttempt (i : Nat)
  | delayMs (ms : Nat)
deriving DecidableEq, Repr

namespace SignalService

def MAX_RETRIES : Nat := 10

def RETRY_DELAY : Nat := 2000

def validRiskLevels : List String := ["conservative", "moderate", "aggressive"]

def validFocuses : List String := ["income", "growth", "hedging"]

/-- `SignalService.validateRequest`, as the function returning the
`InvalidParameterError` the method throws, if any; checks run in source
order. -/
def validateRequest (req : TradingSignalRequest) : Option DomainError :=
  if jsToUpper req.asset ∉ validAssets then
    some (.invalidParameter INVALID_ASSET_MSG)
  else if req.budget_usd ≤ 0 then
    some (.invalidParameter "Budget must be greater than zero")
  else if req.trade_window_ms ≤ 0 then
    some (.invalidParameter "Trading window must be greater than zero")
  else if req.risk_level ∉ validRiskLevels then
    some (.invalidParameter
      ("Invalid risk level. Must be one of: " ++ String.intercalate ", " validRiskLevels))
  else if req.strategy_focus ∉ validFocuses then
    some (.invalidParameter
      ("Invalid strategy focus. Must be one of: " ++ String.intercalate ", " validFocuses))
  else none

/-- `result.personalAgents[0]?.signal_requests[0]`. -/
def signalRequestOf (r : TradeSignalsResult) : Option SignalRequestStatus :=
  match r.personalAgents.head? with
  | none => none
  | some a => a.signal_requests.head?

/-- The loop's success test:
`signalRequest?.progress === "completed" && signalRequest?.signals?.length > 0`. -/
def isTerminalSuccess (r : TradeSignalsResult) : Bool :=
  match signalRequestOf r with
  | some sr => sr.progress == "completed" && decide (0 < sr.signals.length)
  | none => false

/-- The `while (retries < MAX_RETRIES)` loop of `waitForSignals`, by
recursion on the remaining attempts (`fuel = MAX_RETRIES - retries`).
`poll i` is the result of the status fetch on attempt `i`.  Each failed
attempt is followed by a `setTimeout(RETRY_DELAY)` suspension; exhausting
the attempts throws the plain `Error("Timeout waiting for signals")`. -/
def waitForSignalsAux (poll : Nat → TradeSignalsResult) :
    Nat → Nat → List SigEvent × Except Thrown TradeSignalsResult
  | _, 0 => ([], .error (.jsError "Timeout waiting for signals"))
  | retries, fuel + 1 =>
      let r := poll retries
      if isTerminalSuccess r then ([.pollAttempt retries], .ok r)
      else
        let rest := waitForSignalsAux poll (retries + 1) fuel
        (SigEvent.pollAttempt retries :: SigEvent.delayMs RETRY_DELAY :: rest.1, rest.2)

def waitForSignals (poll : Nat → TradeSignalsResult) :
    List SigEvent × Except Thrown TradeSignalsResult :=
  waitForSignalsAux poll 0 MAX_RETRIES

/-- The per-signal mapping in `generateSignals`' return value: every
field of the remote record is carried over. -/
def signalToOut (s : SignalData) : SignalOut :=
  { id := s.id
    action_type := s.signal.action_type
    position_type := s.signal.position_type
    instrument := s.signal.instrument
    instrument_type := s.signal.instrument_type
    size := s.signal.size
    expected_instrument_price_usd := s.signal.expected_instrument_price_usd
    expected_total_price_usd := s.signal.expected_total_price_usd
    reason := s.signal.reason
    target_position_id := s.signal.target_position_id
    created_at := s.created_at
    updated_at := s.updated_at }

/-- `SignalService.generateSignals`: validate, initialize the SDK, create
the trade agent, request signals, poll via `waitForSignals`, then map the
first agent's first request's signal list.  Any thrown value passes
through `handleError` with context `signal generation for {asset}`.
The unreachable `none` case of the final access (`waitForSignals` only
succeeds when the first request is present and completed) models the
`TypeError` the raw indexing would throw. -/
def generateSignals (req : TradingSignalRequest) (poll : Nat → TradeSignalsResult) (now : Nat) :
    List SigEvent × Except Thrown SignalResponseOut :=
  match validateRequest req with
  | some e =>
      ([], .error (handleError (.domainErr e) (some ("signal generation for " ++ req.asset))))
  | none =>
      let rest := waitForSignals poll
      let events := SigEvent.sdkInit :: SigEvent.createAgent :: SigEvent.requestSignals :: rest.1
      match rest.2 with
      | .error e =>
          (events, .error (handleError e (some ("signal generation for " ++ req.asset))))
      | .ok result =>
          match signalRequestOf result with
          | none =>
              (events, .error (handleError (.jsError "TypeError")
                (some ("signal generation for " ++ req.asset))))
          | some sr => (events, .ok { signals := sr.signals.map signalToOut, timestamp := now })

/-- The event trace of a run in which every attempt fails, starting at
attempt `r` with `f` attempts remaining. -/
def timeoutTraceFrom : Nat → Nat → List SigEvent
  | _, 0 => []
  | r, f + 1 => SigEvent.pollAttempt r :: SigEvent.delayMs RETRY_DELAY :: timeoutTraceFrom (r + 1) f

end SignalService

/-! ### Perpetual pairs service (src/services/perpsPairs.ts, src/dist/index.js:512-567) -/

structure PerpsPairsRequest where
  protocolName : String
  asset : Option String
deriving DecidableEq, Repr

/-- The request object handed to `sdk.getPerpsPairs` (the `baseAsset`
field is only set when an asset filter was recognized). -/
structure PairsApiRequest where
  protocol : String
  baseAsset : Option String
deriving DecidableEq, Repr

structure PairOut where
  baseAsset : Option String
  quoteAsset : Option String
deriving DecidableEq, Repr

structure PerpsPairsResponseOut where
  pairs : List PairOut
deriving DecidableEq, Repr

inductive PerpsEvent where
  | sdkInit
  | pairsFetch (req : PairsApiRequest)
deriving DecidableEq, Repr

namespace PerpsPairsService

def validProtocols : List String := ["hyperliquid"]

/-- `PerpsPairsService.validateProtocol`: lowercase and require
membership in `PERPS_PROTOCOLS`; the error message interpolates the
caller's protocol name. -/
def validateProtocol (protocolName : String) : Option DomainError :=
  if jsToLower protocolName ∉ validProtocols then
    some (.invalidParameter ("Invalid protocol. Only " ++ protocolName ++ " is supported."))
  else none

/-- The asset-filter computation: a supplied asset case-insensitively
equal to `btc`/`eth` becomes the uppercase filter; anything else
(including no asset) leaves `assetName = null`. -/
def assetFilter (asset : Option String) : Option String :=
  if asset.map jsToLower = some "btc" then some "BTC"
  else if asset.map jsToLower = some "eth" then some "ETH"
  else none

def perpsApiRequest (req : PerpsPairsRequest) : PairsApiRequest :=
  { protocol := req.protocolName, baseAsset := assetFilter req.asset }

/-- `const [baseAsset, quoteAsset] = pair.split("-")`: array
destructuring of the split result; a missing component is `undefined`. -/
def formatPair (pair : String) : PairOut :=
  let parts := jsSplit '-' pair
  { baseAsset := parts[0]?, quoteAsset := parts[1]? }

/-- `PerpsPairsService.getPerpsPairs`: validate the protocol, build the
filtered request, fetch (the remote returns delimited pair strings), and
split each pair. -/
def getPerpsPairs (req : PerpsPairsRequest) (remote : PairsApiRequest → List String) :
    List PerpsEvent × Except Thrown PerpsPairsResponseOut :=
  match validateProtocol req.protocolName with
  | some e =>
      ([], .error (handleError (.domainErr e)
        (some ("Failed to fetch perps pairs for " ++ req.protocolName))))
  | none =>
      let pairsRequest := perpsApiRequest req
      ([.sdkInit, .pairsFetch pairsRequest],
        .ok { pairs := (remote pairsRequest).map formatPair })

end PerpsPairsService

/-! ### Concrete sample data, used to evaluate the model -/

/-- A valid signal request (used to instantiate theorems). -/
def btcSignalRequest : TradingSignalRequest where
  asset := "BTC"
  budget_usd := 100
  trade_window_ms := 1000
  risk_level := "moderate"
  strategy_focus := "growth"

/-- A poll result with no agents (a run that never completes). -/
def pendingResult : TradeSignalsResult := { personalAgents := [] }

/-- One concrete remote signal record. -/
def sampleSignal : SignalData where
  id := "sig-1"
  signal :=
    { action_type := "open", position_type := "long", instrument := "ETH-01JAN70-100-C",
      instrument_type := "option", size := 2, expected_instrument_price_usd := 10,
      expected_total_price_usd := 20, reason := "test", target_position_id := none }
  created_at := "t0"
  updated_at := "t1"

/-- A poll result whose first agent's first request is completed with one
signal. -/
def completedResult : TradeSignalsResult :=
  { personalAgents := [{ signal_requests := [{ progress := "completed", signals := [sampleSignal] }] }] }

/-- A cache entry for BTC, used to demonstrate replacement. -/
def oldBtcEntry : CachedOption where
  optionId := "old-1"
  symbol := "BTC"
  type := "call"
  expiry := "2024-01-01"
  strike := 100
  protocol := "derive"
  marketName := "derive"
  contractPrice := 5
  availableAmount := "1"

/-- A stale service state holding one BTC entry. -/
def staleBtcState : OptionState := { optionsCache := [oldBtcEntry], lastFetchTime := 0 }

/-! ## Helper lemmas -/

theorem jsSplitAux_no_sep (sep : Char) (l acc : List Char) (h : sep ∉ l) :
    jsSplitAux sep l acc = [acc.reverse ++ l] := by
  induction l generalizing acc with
  | nil => simp [jsSplitAux]
  | cons c cs ih =>
      simp only [List.mem_cons, not_or] at h
      have hc : ¬ c = sep := fun heq => h.1 heq.symm
      simp only [jsSplitAux, if_neg hc]
      rw [ih _ h.2]
      simp

theorem asString_toList (s : String) : s.toList.asString = s := by
  cases s
  rfl

/-- A string containing no separator character splits into the single
chunk consisting of the whole string. -/
theorem jsSplit_no_sep (sep : Char) (s : String) (h : sep ∉ s.toList) :
    jsSplit sep s = [s] := by
  unfold jsSplit
  rw [jsSplitAux_no_sep sep s.toList [] h]
  simp only [List.reverse_nil, List.nil_append, List.map_cons, List.map_nil]
  rw [asString_toList]

theorem waitForSignalsAux_all_fail (poll : Nat → TradeSignalsResult) (fuel retries : Nat)
    (h : ∀ i, retries ≤ i → i < retries + fuel →
      SignalService.isTerminalSuccess (poll i) = false) :
    SignalService.waitForSignalsAux poll retries fuel
      = (SignalService.timeoutTraceFrom retries fuel,
         .error (.jsError "Timeout waiting for signals")) := by
  induction fuel generalizing retries with
  | zero => rfl
  | succ f ih =>
      have h0 : SignalService.isTerminalSuccess (poll retries) = false :=
        h retries le_rfl (by omega)
      simp only [SignalService.waitForSignalsAux, h0, Bool.false_eq_true, if_false]
      rw [ih (retries + 1) (fun i hi1 hi2 => h i (by omega) (by omega))]
      rfl

theorem waitForSignalsAux_first_success (poll : Nat → TradeSignalsResult) (r f : Nat)
    (h : SignalService.isTerminalSuccess (poll r) = true) :
    SignalService.waitForSignalsAux poll r (f + 1) = ([.pollAttempt r], .ok (poll r)) := by
  simp [SignalService.waitForSignalsAux, h]

/-! ## Claims -/

/-- C2, counterexample: the claim says every thrown value that is not a
recognized domain error is wrapped as an `ApiError` with status 500, and
hence callers only observe the taxonomy.  But `handleError` passes
through any `Error` instance unchanged: the plain
`Error("Timeout waiting for signals")` thrown by the polling loop is not
a `GrixError`, is not wrapped, and reaches the caller of
`generateSignals` as-is, outside the taxonomy. -/
theorem c2_plain_error_passthrough_counterexample :
    handleError (.jsError "Timeout waiting for signals") (some "signal generation for BTC")
      = .jsError "Timeout waiting for signals"
    ∧ isDomainError (.jsError "Timeout waiting for signals") = false
    ∧ (SignalService.generateSignals btcSignalRequest (fun _ => pendingResult) 0).2
        = .error (.jsError "Timeout waiting for signals") :=
  ⟨rfl, rfl, by rfl⟩

/-- C2, amended: `handleError` returns the thrown value unchanged
whenever it is any `Error` instance (recognized domain errors and plain
`Error`s alike), and wraps only non-`Error` thrown values as an
`ApiError` carrying status 500, the stringified value
(`"Unknown error"` for null/undefined/empty) and the context label. -/
theorem c2_error_normalization_amended (e : Thrown) (ctx : Option String) :
    (isErrorInstance e = true → handleError e ctx = e)
    ∧ (isErrorInstance e = false →
        ∃ t, e = .other t
          ∧ handleError e ctx
              = .domainErr (.api
                  ("Grix API error" ++ contextSuffix ctx ++ ": " ++ toStrOrUnknown t) 500)
          ∧ isDomainError (handleError e ctx) = true) := by
  cases e <;> simp [handleError, isErrorInstance, isDomainError]

/-- Witness for C2 (amended) at concrete inputs: a plain `Error` passes
through, a thrown string is wrapped with context and status 500. -/
theorem c2_error_normalization_amended_witness :
    handleError (.jsError "boom") none = .jsError "boom"
    ∧ handleError (.other (some "boom")) (some "options fetch")
        = .domainErr (.api "Grix API error during options fetch: boom" 500) := by
  refine ⟨(c2_error_normalization_amended (.jsError "boom") none).1 rfl, ?_⟩
  obtain ⟨t, ht, h2, _⟩ :=
    (c2_error_normalization_amended (.other (some "boom")) (some "options fetch")).2 rfl
  cases ht
  rw [h2]
  rfl

/-- C5: when no polling attempt reports the first agent's first
signal-request as completed with a non-empty signal list, the workflow
performs exactly 10 polling attempts, each followed by the fixed
2000 ms delay, fails with the timeout error, and never performs an 11th
poll — the trace below is exhaustive. -/
theorem c5_polling_timeout (req : TradingSignalRequest)
    (poll : Nat → TradeSignalsResult) (now : Nat)
    (hval : SignalService.validateRequest req = none)
    (hfail : ∀ i, i < SignalService.MAX_RETRIES →
      SignalService.isTerminalSuccess (poll i) = false) :
    SignalService.generateSignals req poll now
      = ([.sdkInit, .createAgent, .requestSignals,
          .pollAttempt 0, .delayMs 2000, .pollAttempt 1, .delayMs 2000,
          .pollAttempt 2, .delayMs 2000, .pollAttempt 3, .delayMs 2000,
          .pollAttempt 4, .delayMs 2000, .pollAttempt 5, .delayMs 2000,
          .pollAttempt 6, .delayMs 2000, .pollAttempt 7, .delayMs 2000,
          .pollAttempt 8, .delayMs 2000, .pollAttempt 9, .delayMs 2000],
         .error (.jsError "Timeout waiting for signals")) := by
  have hw : SignalService.waitForSignals poll
      = (SignalService.timeoutTraceFrom 0 SignalService.MAX_RETRIES,
         .error (.jsError "Timeout waiting for signals")) := by
    rw [SignalService.waitForSignals]
    exact waitForSignalsAux_all_fail poll SignalService.MAX_RETRIES 0
      (fun i _ hi2 => hfail i (by omega))
  simp only [SignalService.generateSignals, hval, hw]
  rfl

/-- Witness for C5: a poller that always returns no agents times out
with the full 10-attempt trace. -/
theorem c5_polling_timeout_witness :
    SignalService.generateSignals btcSignalRequest (fun _ => pendingResult) 0
      = ([.sdkInit, .createAgent, .requestSignals,
          .pollAttempt 0, .delayMs 2000, .pollAttempt 1, .delayMs 2000,
          .pollAttempt 2, .delayMs 2000, .pollAttempt 3, .delayMs 2000,
          .pollAttempt 4, .delayMs 2000, .pollAttempt 5, .delayMs 2000,
          .pollAttempt 6, .delayMs 2000, .pollAttempt 7, .delayMs 2000,
          .pollAttempt 8, .delayMs 2000, .pollAttempt 9, .delayMs 2000],
         .error (.jsError "Timeout waiting for signals")) :=
  c5_polling_timeout _ _ 0 (by decide) (fun i _ => by rfl)

/-- C6: when the first poll already reports the first agent's first
signal-request as completed with a non-empty signal list, the workflow
performs exactly one poll (no delay), succeeds, and maps every remote
signal record into the output shape with all twelve fields carried over
unchanged. -/
theorem c6_first_poll_success_mapping (req : TradingSignalRequest)
    (poll : Nat → TradeSignalsResult) (now : Nat)
    (hval : SignalService.validateRequest req = none)
    (hs : SignalService.isTerminalSuccess (poll 0) = true) :
    (SignalService.generateSignals req poll now).1
      = [.sdkInit, .createAgent, .requestSignals, .pollAttempt 0]
    ∧ (∀ sr, SignalService.signalRequestOf (poll 0) = some sr →
        (SignalService.generateSignals req poll now).2
          = .ok { signals := sr.signals.map SignalService.signalToOut, timestamp := now })
    ∧ (∀ s, SignalService.signalToOut s
        = { id := s.id, action_type := s.signal.action_type,
            position_type := s.signal.position_type, instrument := s.signal.instrument,
            instrument_type := s.signal.instrument_type, size := s.signal.size,
            expected_instrument_price_usd := s.signal.expected_instrument_price_usd,
            expected_total_price_usd := s.signal.expected_total_price_usd,
            reason := s.signal.reason, target_position_id := s.signal.target_position_id,
            created_at := s.created_at, updated_at := s.updated_at }) := by
  have h10 : SignalService.MAX_RETRIES = 9 + 1 := rfl
  have hw : SignalService.waitForSignals poll = ([.pollAttempt 0], .ok (poll 0)) := by
    rw [SignalService.waitForSignals, h10, waitForSignalsAux_first_success poll 0 9 hs]
  refine ⟨?_, ?_, fun s => rfl⟩
  · simp only [SignalService.generateSignals, hval, hw]
    cases hsr : SignalService.signalRequestOf (poll 0) <;> simp [hsr]
  · intro sr hsr
    simp only [SignalService.generateSignals, hval, hw, hsr]

/-- Witness for C6: one completed signal on the first poll is returned,
all fields preserved. -/
theorem c6_first_poll_success_mapping_witness :
    SignalService.generateSignals btcSignalRequest (fun _ => completedResult) 7
      = ([.sdkInit, .createAgent, .requestSignals, .pollAttempt 0],
         .ok { signals := [SignalService.signalToOut sampleSignal], timestamp := 7 }) := by
  have h := c6_first_poll_success_mapping btcSignalRequest (fun _ => completedResult) 7
    (by decide) (by decide)
  have h2 := h.2.1 { progress := "completed", signals := [sampleSignal] } rfl
  exact Prod.ext h.1 h2

/-- C7: signal-request numeric validation is strictly-greater-than-zero:
any request with `budget_usd <= 0` or `trade_window_ms <= 0` fails
validation with an `InvalidParameterError` and the workflow performs no
remote interaction at all; while `budget_usd = 0.01` together with
otherwise valid parameters passes validation. -/
theorem c7_numeric_validation_boundary :
    (∀ (req : TradingSignalRequest) (poll : Nat → TradeSignalsResult) (now : Nat),
        req.budget_usd ≤ 0 ∨ req.trade_window_ms ≤ 0 →
        ∃ msg, SignalService.validateRequest req = some (.invalidParameter msg)
          ∧ SignalService.generateSignals req poll now
              = ([], .error (.domainErr (.invalidParameter msg))))
    ∧ (∀ req : TradingSignalRequest,
        jsToUpper req.asset ∈ validAssets → req.budget_usd = 0.01 →
        0 < req.trade_window_ms → req.risk_level ∈ SignalService.validRiskLevels →
        req.strategy_focus ∈ SignalService.validFocuses →
        SignalService.validateRequest req = none) := by
  constructor
  · intro req poll now hdisj
    have hv : ∃ msg, SignalService.validateRequest req = some (.invalidParameter msg) := by
      unfold SignalService.validateRequest
      by_cases ha : jsToUpper req.asset ∉ validAssets
      · exact ⟨INVALID_ASSET_MSG, by rw [if_pos ha]⟩
      · rw [if_neg ha]
        by_cases hb : req.budget_usd ≤ 0
        · exact ⟨"Budget must be greater than zero", by rw [if_pos hb]⟩
        · have hwlt : req.trade_window_ms ≤ 0 := hdisj.resolve_left hb
          exact ⟨"Trading window must be greater than zero", by
            rw [if_neg hb, if_pos hwlt]⟩
    obtain ⟨msg, hmsg⟩ := hv
    exact ⟨msg, hmsg, by simp [SignalService.generateSignals, hmsg, handleError]⟩
  · intro req h1 h2 h3 h4 h5
    unfold SignalService.validateRequest
    rw [if_neg (not_not_intro h1), if_neg (by rw [h2]; norm_num),
      if_neg (not_le.mpr h3), if_neg (not_not_intro h4), if_neg (not_not_intro h5)]

/-- Witness for C7: `budget_usd = 0` is rejected with no remote events,
`budget_usd = 1/100 = 0.01` passes validation. -/
theorem c7_numeric_validation_boundary_witness :
    (∃ msg, SignalService.validateRequest { btcSignalRequest with budget_usd := 0 }
          = some (.invalidParameter msg)
      ∧ SignalService.generateSignals { btcSignalRequest with budget_usd := 0 }
          (fun _ => pendingResult) 0
          = ([], .error (.domainErr (.invalidParameter msg))))
    ∧ SignalService.validateRequest { btcSignalRequest with budget_usd := mkRat 1 100 }
        = none := by
  constructor
  · exact c7_numeric_validation_boundary.1 _ _ 0 (Or.inl le_rfl)
  · exact c7_numeric_validation_boundary.2 _ (by decide)
      (show mkRat 1 100 = (0.01 : Rat) by norm_num)
      (show (0 : Rat) < 1000 by norm_num) (by decide) (by decide)

/-- C1: the price query and the signal workflow reject any asset whose
uppercase form is outside {BTC, ETH} with an `InvalidParameterError`
before any remote interaction (empty event trace).  The options query,
however, performs no asset validation at all: it always initializes the
SDK (first trace event) and, whenever the cache is stale, issues a board
fetch in which any non-BTC asset has been silently mapped to ETH — while
the dead `OptionService.validateRequest` in the same class would have
rejected the asset.  This establishes the claim for `getPrice` and
`generateSignals` and exhibits the divergence for `getOptions`. -/
theorem c1_asset_validation_coverage :
    (∀ (env : JsEnv) (asset : String) (price : Rat) (now : Nat),
        jsToUpper asset ∉ validAssets →
        PriceService.getPrice env asset price now
          = ([], .error (.domainErr (.invalidParameter INVALID_ASSET_MSG))))
    ∧ (∀ (req : TradingSignalRequest) (poll : Nat → TradeSignalsResult) (now : Nat),
        jsToUpper req.asset ∉ validAssets →
        SignalService.generateSignals req poll now
          = ([], .error (.domainErr (.invalidParameter INVALID_ASSET_MSG))))
    ∧ (∀ (env : JsEnv) (st : OptionState) (req : OptionsRequest) (now : Nat)
          (board : Option (List RawOption)),
        (OptionService.getOptions env st req now board).1.head? = some OptEvent.sdkInit
        ∧ (OptionService.shouldRefreshCache now st = true →
            OptEvent.boardFetch (OptionService.mapAssetToUnderlying req.asset)
                (OptionService.mapOptionType req.optionType)
                (OptionService.mapPositionType req.positionType)
              ∈ (OptionService.getOptions env st req now board).1))
    ∧ (∀ asset : String, jsToUpper asset ∉ validAssets →
        OptionService.mapAssetToUnderlying asset = "ETH"
        ∧ OptionService.validateRequest asset "call" none
            = some (.invalidParameter INVALID_ASSET_MSG)) := by
  refine ⟨?_, ?_, ?_, ?_⟩
  · intro env asset price now h
    simp [PriceService.getPrice, PriceService.validateAsset, h, handleError]
  · intro req poll now h
    simp [SignalService.generateSignals, SignalService.validateRequest, h, handleError]
  · intro env st req now board
    by_cases h : OptionService.shouldRefreshCache now st = true
    · simp [OptionService.getOptions, h]
    · simp [OptionService.getOptions, h]
  · intro asset h
    have hb : ¬ jsToUpper asset = "BTC" := by
      simp only [validAssets, List.mem_cons, not_or] at h
      exact h.1
    exact ⟨by simp [OptionService.mapAssetToUnderlying, hb],
      by simp [OptionService.validateRequest, h]⟩

/-- Witness for C1 at the failing input `DOGE`: price and signal queries
fail with the invalid-asset error and no remote events, while the
options query initializes the SDK and fetches the board with `DOGE`
mapped to ETH. -/
theorem c1_asset_validation_coverage_witness :
    PriceService.getPrice testEnv "DOGE" 0 0
      = ([], .error (.domainErr (.invalidParameter INVALID_ASSET_MSG)))
    ∧ SignalService.generateSignals { btcSignalRequest with asset := "DOGE" }
        (fun _ => pendingResult) 0
        = ([], .error (.domainErr (.invalidParameter INVALID_ASSET_MSG)))
    ∧ (OptionService.getOptions testEnv OptionService.initialState
        { asset := "DOGE", optionType := some "call", positionType := none }
        70000 none).1.head? = some OptEvent.sdkInit
    ∧ OptEvent.boardFetch "ETH" "call" "short"
        ∈ (OptionService.getOptions testEnv OptionService.initialState
            { asset := "DOGE", optionType := some "call", positionType := none }
            70000 none).1
    ∧ OptionService.mapAssetToUnderlying "DOGE" = "ETH" := by
  have h : jsToUpper "DOGE" ∉ validAssets := by decide
  have h3 := c1_asset_validation_coverage.2.2.1 testEnv OptionService.initialState
    { asset := "DOGE", optionType := some "call", positionType := none } 70000 none
  exact ⟨c1_asset_validation_coverage.1 testEnv "DOGE" 0 0 h,
    c1_asset_validation_coverage.2.1 { btcSignalRequest with asset := "DOGE" }
      (fun _ => pendingResult) 0 h,
    h3.1, h3.2 (by decide), (c1_asset_validation_coverage.2.2.2 "DOGE" h).1⟩

/-- C3: a board fetch is issued, and the refresh timestamp updated, if
and only if the elapsed time since the last refresh strictly exceeds the
60000 ms freshness window — independent of the request and of which
asset was last cached; consequently, from a fresh service, two
`getOptions` calls at most 60 s apart perform exactly one board fetch in
total, and calls more than 60 s apart perform two. -/
theorem c3_cache_refresh_window :
    (∀ (env : JsEnv) (st : OptionState) (req : OptionsRequest) (now : Nat)
        (board : Option (List RawOption)),
        OptionService.fetchCount (OptionService.getOptions env st req now board).1
          = (if OptionService.CACHE_DURATION < now - st.lastFetchTime then 1 else 0)
        ∧ (OptionService.getOptions env st req now board).2.1.lastFetchTime
          = (if OptionService.CACHE_DURATION < now - st.lastFetchTime then now
             else st.lastFetchTime))
    ∧ (∀ (env : JsEnv) (req : OptionsRequest) (t0 t1 : Nat)
        (b1 b2 : Option (List RawOption)),
        OptionService.CACHE_DURATION < t0 → t0 ≤ t1 →
        (t1 - t0 ≤ OptionService.CACHE_DURATION →
          OptionService.fetchCount
              (OptionService.getOptions env OptionService.initialState req t0 b1).1
            + OptionService.fetchCount
                (OptionService.getOptions env
                  (OptionService.getOptions env OptionService.initialState req t0 b1).2.1
                  req t1 b2).1
            = 1)
        ∧ (OptionService.CACHE_DURATION < t1 - t0 →
          OptionService.fetchCount
              (OptionService.getOptions env OptionService.initialState req t0 b1).1
            + OptionService.fetchCount
                (OptionService.getOptions env
                  (OptionService.getOptions env OptionService.initialState req t0 b1).2.1
                  req t1 b2).1
            = 2)) := by
  have key : ∀ (env : JsEnv) (st : OptionState) (req : OptionsRequest) (now : Nat)
      (board : Option (List RawOption)),
      OptionService.fetchCount (OptionService.getOptions env st req now board).1
        = (if OptionService.CACHE_DURATION < now - st.lastFetchTime then 1 else 0)
      ∧ (OptionService.getOptions env st req now board).2.1.lastFetchTime
        = (if OptionService.CACHE_DURATION < now - st.lastFetchTime then now
           else st.lastFetchTime) := by
    intro env st req now board
    by_cases h : OptionService.CACHE_DURATION < now - st.lastFetchTime
    · rw [if_pos h, if_pos h]
      have hs : OptionService.shouldRefreshCache now st = true := by
        simpa [OptionService.shouldRefreshCache] using h
      constructor
      · simp [OptionService.getOptions, hs, OptionService.fetchCount,
          OptionService.isBoardFetch]
      · simp [OptionService.getOptions, hs, OptionService.refreshedState]
    · rw [if_neg h, if_neg h]
      have hs : OptionService.shouldRefreshCache now st = false := by
        simpa [OptionService.shouldRefreshCache] using h
      constructor
      · simp [OptionService.getOptions, hs, OptionService.fetchCount,
          OptionService.isBoardFetch]
      · simp [OptionService.getOptions, hs]
  refine ⟨key, ?_⟩
  intro env req t0 t1 b1 b2 h0 h01
  have k1 := key env OptionService.initialState req t0 b1
  have hst : (OptionService.getOptions env OptionService.initialState req t0 b1).2.1.lastFetchTime = t0 := by
    rw [k1.2, if_pos (by simpa [OptionService.initialState] using h0)]
  have k2 := key env (OptionService.getOptions env OptionService.initialState req t0 b1).2.1
    req t1 b2
  rw [hst] at k2
  have c1count : OptionService.fetchCount
      (OptionService.getOptions env OptionService.initialState req t0 b1).1 = 1 := by
    rw [k1.1, if_pos (by simpa [OptionService.initialState] using h0)]
  constructor
  · intro hle
    rw [c1count, k2.1, if_neg (by omega)]
  · intro hlt
    rw [c1count, k2.1, if_pos hlt]

/-- Witness for C3: from a fresh service, calls at 70 s and 120 s (50 s
apart) fetch once in total; the refresh predicate fires at 70 s. -/
theorem c3_cache_refresh_window_witness :
    OptionService.fetchCount
        (OptionService.getOptions testEnv OptionService.initialState
          { asset := "BTC", optionType := some "call", positionType := none }
          70000 none).1
      + OptionService.fetchCount
          (OptionService.getOptions testEnv
            (OptionService.getOptions testEnv OptionService.initialState
              { asset := "BTC", optionType := some "call", positionType := none }
              70000 none).2.1
            { asset := "BTC", optionType := some "call", positionType := none }
            120000 none).1
      = 1 :=
  (c3_cache_refresh_window.2 testEnv
    { asset := "BTC", optionType := some "call", positionType := none }
    70000 120000 none none (by decide) (by decide)).1 (by decide)

/-- C4: on every refresh the cache is entirely replaced by the
transformed new fetch — the post-state equals `refreshedState`, which
does not depend on the previous cache; the structured result is computed
from the new cache only; and two refreshing calls from different prior
cache states produce identical results. -/
theorem c4_cache_full_replacement (env : JsEnv) (st : OptionState) (req : OptionsRequest)
    (now : Nat) (board : Option (List RawOption))
    (h : OptionService.shouldRefreshCache now st = true) :
    (OptionService.getOptions env st req now board).2.1
      = OptionService.refreshedState env (OptionService.mapAssetToUnderlying req.asset) now board
    ∧ (OptionService.getOptions env st req now board).2.2.options
      = (OptionService.applyTypeFilter req.optionType
          (OptionService.buildCache env (OptionService.mapAssetToUnderlying req.asset)
            (OptionService.transformOptionsData env board))).map
          (OptionService.cacheToOut env)
    ∧ (∀ st2 : OptionState, OptionService.shouldRefreshCache now st2 = true →
        (OptionService.getOptions env st req now board).2
          = (OptionService.getOptions env st2 req now board).2) := by
  refine ⟨?_, ?_, ?_⟩
  · simp [OptionService.getOptions, h]
  · simp [OptionService.getOptions, h, OptionService.buildResponse,
      OptionService.refreshedState]
  · intro st2 h2
    simp [OptionService.getOptions, h, h2]

/-- Witness for C4: a service whose cache holds one BTC entry refreshes
for an ETH request; the new state is exactly the rebuilt (here empty)
cache — the BTC entry is gone. -/
theorem c4_cache_full_replacement_witness :
    (OptionService.getOptions testEnv staleBtcState
        { asset := "ETH", optionType := some "call", positionType := none }
        70000 (some [])).2.1
      = OptionService.refreshedState testEnv "ETH" 70000 (some []) :=
  (c4_cache_full_replacement testEnv staleBtcState
    { asset := "ETH", optionType := some "call", positionType := none }
    70000 (some []) (by decide)).1

/-- C9: when a refresh leaves the cache empty — in particular when the
remote board response is not an array (`none`) — `getOptions` still
returns a normal response (the model has no failure path here, matching
the code, where no value is thrown): the formatted string is exactly
`"No options available"` and the structured list is empty. -/
theorem c9_empty_cache_not_error (env : JsEnv) (st : OptionState) (req : OptionsRequest)
    (now : Nat) (board : Option (List RawOption))
    (h1 : OptionService.shouldRefreshCache now st = true)
    (h2 : OptionService.transformOptionsData env board = []) :
    (OptionService.getOptions env st req now board).2.2.formattedOptions
      = "No options available"
    ∧ (OptionService.getOptions env st req now board).2.2.options = [] := by
  have hfilter : OptionService.applyTypeFilter req.optionType [] = [] := by
    cases req.optionType with
    | none => rfl
    | some s => simp [OptionService.applyTypeFilter]
  constructor <;>
    simp [OptionService.getOptions, h1, OptionService.buildResponse,
      OptionService.refreshedState, OptionService.buildCache, h2, hfilter,
      OptionService.formatOptionsResponse]

/-- Witness for C9: a non-array board response at a stale cache yields
the `"No options available"` display and an empty list. -/
theorem c9_empty_cache_not_error_witness :
    (OptionService.getOptions testEnv OptionService.initialState
        { asset := "BTC", optionType := some "call", positionType := none }
        70000 none).2.2.formattedOptions = "No options available"
    ∧ (OptionService.getOptions testEnv OptionService.initialState
        { asset := "BTC", optionType := some "call", positionType := none }
        70000 none).2.2.options = [] :=
  c9_empty_cache_not_error testEnv OptionService.initialState
    { asset := "BTC", optionType := some "call", positionType := none }
    70000 none (by decide) rfl

/-- C8: the perpetual-pairs query rejects any protocol whose lowercase
form is outside {hyperliquid} with an `InvalidParameterError` before any
remote interaction; for a valid protocol, a supplied asset
case-insensitively equal to btc/eth is forwarded uppercased as the
`baseAsset` filter, and any other supplied asset is silently ignored —
the query proceeds unfiltered and succeeds. -/
theorem c8_perps_protocol_and_asset_filter :
    (∀ (req : PerpsPairsRequest) (remote : PairsApiRequest → List String),
        jsToLower req.protocolName ∉ PerpsPairsService.validProtocols →
        PerpsPairsService.getPerpsPairs req remote
          = ([], .error (.domainErr (.invalidParameter
              ("Invalid protocol. Only " ++ req.protocolName ++ " is supported.")))))
    ∧ (∀ (req : PerpsPairsRequest) (remote : PairsApiRequest → List String) (a : String),
        jsToLower req.protocolName ∈ PerpsPairsService.validProtocols →
        req.asset = some a → (jsToLower a = "btc" ∨ jsToLower a = "eth") →
        PerpsPairsService.assetFilter req.asset = some (jsToUpper (jsToLower a))
        ∧ PerpsPairsService.getPerpsPairs req remote
          = ([.sdkInit, .pairsFetch (PerpsPairsService.perpsApiRequest req)],
             .ok { pairs := (remote (PerpsPairsService.perpsApiRequest req)).map PerpsPairsService.formatPair }))
    ∧ (∀ (req : PerpsPairsRequest) (remote : PairsApiRequest → List String),
        jsToLower req.protocolName ∈ PerpsPairsService.validProtocols →
        req.asset.map jsToLower ≠ some "btc" → req.asset.map jsToLower ≠ some "eth" →
        PerpsPairsService.assetFilter req.asset = none
        ∧ PerpsPairsService.getPerpsPairs req remote
          = ([.sdkInit, .pairsFetch (PerpsPairsService.perpsApiRequest req)],
             .ok { pairs := (remote (PerpsPairsService.perpsApiRequest req)).map PerpsPairsService.formatPair })) := by
  refine ⟨?_, ?_, ?_⟩
  · intro req remote h
    simp [PerpsPairsService.getPerpsPairs, PerpsPairsService.validateProtocol, h, handleError]
  · intro req remote a hp ha hcase
    have hval : PerpsPairsService.validateProtocol req.protocolName = none := by
      simp [PerpsPairsService.validateProtocol, hp]
    rcases hcase with hbtc | heth
    · have hfilter : PerpsPairsService.assetFilter req.asset = some "BTC" := by
        simp [PerpsPairsService.assetFilter, ha, hbtc]
      have hupper : jsToUpper (jsToLower a) = "BTC" := by rw [hbtc]; rfl
      exact ⟨by rw [hupper, hfilter], by simp [PerpsPairsService.getPerpsPairs, hval]⟩
    · have hne : ¬ Option.map jsToLower req.asset = some "btc" := by
        rw [ha]
        simp [heth]
      have hfilter : PerpsPairsService.assetFilter req.asset = some "ETH" := by
        simp only [PerpsPairsService.assetFilter, if_neg hne]
        simp [ha, heth]
      have hupper : jsToUpper (jsToLower a) = "ETH" := by rw [heth]; rfl
      exact ⟨by rw [hupper, hfilter], by simp [PerpsPairsService.getPerpsPairs, hval]⟩
  · intro req remote hp h1 h2
    have hval : PerpsPairsService.validateProtocol req.protocolName = none := by
      simp [PerpsPairsService.validateProtocol, hp]
    have hfilter : PerpsPairsService.assetFilter req.asset = none := by
      simp only [PerpsPairsService.assetFilter, if_neg h1, if_neg h2]
    exact ⟨hfilter, by simp [PerpsPairsService.getPerpsPairs, hval]⟩

/-- Witness for C8: `synthetix` is rejected; `Btc` on `Hyperliquid` is
forwarded as `BTC`; `DOGE` is ignored and the query proceeds without a
filter. -/
theorem c8_perps_protocol_and_asset_filter_witness :
    PerpsPairsService.getPerpsPairs { protocolName := "synthetix", asset := none }
        (fun _ => ["BTC-USD"])
      = ([], .error (.domainErr (.invalidParameter
          "Invalid protocol. Only synthetix is supported.")))
    ∧ PerpsPairsService.getPerpsPairs { protocolName := "Hyperliquid", asset := some "Btc" }
        (fun _ => ["BTC-USD"])
        = ([.sdkInit, .pairsFetch { protocol := "Hyperliquid", baseAsset := some "BTC" }],
           .ok { pairs := [{ baseAsset := some "BTC", quoteAsset := some "USD" }] })
    ∧ PerpsPairsService.getPerpsPairs { protocolName := "hyperliquid", asset := some "DOGE" }
        (fun _ => ["BTC-USD"])
        = ([.sdkInit, .pairsFetch { protocol := "hyperliquid", baseAsset := none }],
           .ok { pairs := [{ baseAsset := some "BTC", quoteAsset := some "USD" }] }) := by
  refine ⟨?_, ?_, ?_⟩
  · exact c8_perps_protocol_and_asset_filter.1
      { protocolName := "synthetix", asset := none } (fun _ => ["BTC-USD"]) (by decide)
  · have h := c8_perps_protocol_and_asset_filter.2.1
      { protocolName := "Hyperliquid", asset := some "Btc" } (fun _ => ["BTC-USD"]) "Btc"
      (by decide) rfl (Or.inl (by decide))
    rw [h.2]
    rfl
  · have h := c8_perps_protocol_and_asset_filter.2.2
      { protocolName := "hyperliquid", asset := some "DOGE" } (fun _ => ["BTC-USD"])
      (by decide) (by decide) (by decide)
    rw [h.2]
    rfl

/-- C10: each pair string returned by the remote is split on `-` with no
shape check — for a valid protocol the query always succeeds with the
per-pair split applied; a pair string containing no `-` yields
`baseAsset` equal to the whole string and an absent (`undefined`)
`quoteAsset`. -/
theorem c10_pair_split_no_delimiter :
    (∀ p : String, '-' ∉ p.toList →
        PerpsPairsService.formatPair p = { baseAsset := some p, quoteAsset := none })
    ∧ (∀ (req : PerpsPairsRequest) (remote : PairsApiRequest → List String),
        jsToLower req.protocolName ∈ PerpsPairsService.validProtocols →
        (PerpsPairsService.getPerpsPairs req remote).2
          = .ok { pairs := (remote (PerpsPairsService.perpsApiRequest req)).map PerpsPairsService.formatPair }) := by
  constructor
  · intro p h
    rw [PerpsPairsService.formatPair, jsSplit_no_sep '-' p h]
    rfl
  · intro req remote hp
    have hval : PerpsPairsService.validateProtocol req.protocolName = none := by
      simp [PerpsPairsService.validateProtocol, hp]
    simp [PerpsPairsService.getPerpsPairs, hval]

/-- Witness for C10: the pair string `XBTUSD` (no delimiter) does not
fail — its `baseAsset` is the whole string, its `quoteAsset` absent. -/
theorem c10_pair_split_no_delimiter_witness :
    PerpsPairsService.formatPair "XBTUSD"
      = { baseAsset := some "XBTUSD", quoteAsset := none }
    ∧ (PerpsPairsService.getPerpsPairs { protocolName := "hyperliquid", asset := none }
        (fun _ => ["XBTUSD"])).2
        = .ok { pairs := [{ baseAsset := some "XBTUSD", quoteAsset := none }] } := by
  have h1 := c10_pair_split_no_delimiter.1 "XBTUSD" (by decide)
  have h2 := c10_pair_split_no_delimiter.2
    { protocolName := "hyperliquid", asset := none } (fun _ => ["XBTUSD"]) (by decide)
  refine ⟨h1, ?_⟩
  rw [h2]
  simp [h1]

end Grix
